import Mathlib

/-!
Shallow embedding of the polypaper paper-trading ledger
(`packages/api/src/routes/orders.ts`, `accounts.ts`, `positions.ts`,
`dashboard.ts`, `indicators.ts`) and proofs about its fill, position
and PnL accounting behaviour.

Monetary amounts, prices and quantities are modelled as rationals;
database rows as Lean structures; the `market_candles` latest-close
query as an abstract function `Nat → Option ℚ`; the per-request
transaction (BEGIN/COMMIT/ROLLBACK) as an `Except`-valued state
transformer whose error branch leaves the ledger unchanged.
-/

namespace Polypaper

/-- Order side (`CreateOrderBody.side` in orders.ts): `BUY` or `SELL`. -/
inductive Side
  | BUY
  | SELL
deriving DecidableEq, Repr

/-- Order type (`CreateOrderBody.type`): `MARKET` or `LIMIT`. -/
inductive OrderType
  | MARKET
  | LIMIT
deriving DecidableEq, Repr

/-- Position side (schema check: LONG, SHORT, YES, NO). -/
inductive PosSide
  | LONG
  | SHORT
  | YES
  | NO
deriving DecidableEq, Repr

/-- Order status values used by the order-creation route. -/
inductive OrderStatus
  | PENDING
  | FILLED
  | CANCELLED
deriving DecidableEq, Repr

/-- A row of the `positions` table (fields touched by the routes). -/
structure Position where
  id : Nat
  accountId : Nat
  marketId : Nat
  strategyId : Option Nat
  side : PosSide
  quantity : ℚ
  avg_entry_price : ℚ
  realized_pnl : ℚ
  is_open : Bool
  closedAt : Option Nat
deriving DecidableEq, Repr

/-- A row of the `orders` table as inserted by the create-order route
(orders.ts lines 99-103): status FILLED, filled_at = NOW(). -/
structure Order where
  id : Nat
  accountId : Nat
  marketId : Nat
  strategyId : Option Nat
  side : Side
  type : OrderType
  quantity : ℚ
  price : Option ℚ
  filled_quantity : ℚ
  avg_fill_price : ℚ
  status : OrderStatus
  filledAt : Option Nat
deriving DecidableEq, Repr

/-- The only `trade_log.action` value written by the order route. -/
inductive TradeAction
  | POSITION_CLOSE
deriving DecidableEq, Repr

/-- A row of the `trade_log` table (orders.ts lines 164-167); the
`details` JSON `{pnl, quantity, price}` is flattened into fields. -/
structure TradeLogEntry where
  accountId : Nat
  orderId : Nat
  positionId : Nat
  action : TradeAction
  pnl : ℚ
  quantity : ℚ
  price : ℚ
deriving DecidableEq, Repr

/-- Ledger state: `accounts.current_balance` keyed by account id,
plus the `positions`, `orders` and `trade_log` tables.  `nextId`
stands in for uuid generation. -/
structure Ledger where
  balances : List (Nat × ℚ)
  positions : List Position
  orders : List Order
  tradeLog : List TradeLogEntry
  nextId : Nat
deriving DecidableEq, Repr

/-- Errors the create-order route can answer with: 400 "No price data
available for market", 404 "Account not found", 400 "Insufficient
balance", and the thrown `Error('No open position to sell')`. -/
inductive OrderError
  | noPriceData
  | accountNotFound
  | insufficientBalance
  | noOpenPositionToSell
deriving DecidableEq, Repr

/-- orders.ts line 74:
`fillPrice = type === 'MARKET' ? currentPrice : (price || currentPrice)`.
JavaScript `||` treats a zero price as falsy, hence the `= 0` test. -/
def fillPriceOf (type_ : OrderType) (price : Option ℚ) (currentPrice : ℚ) : ℚ :=
  match type_ with
  | .MARKET => currentPrice
  | .LIMIT =>
    match price with
    | some p => if p = 0 then currentPrice else p
    | none => currentPrice

/-- The WHERE clause of the open-position lookups (orders.ts lines
116-119 and 138-141): `account_id = a AND market_id = m AND is_open`. -/
def posKeyOpen (a m : Nat) (p : Position) : Bool :=
  p.accountId == a && p.marketId == m && p.is_open

/-- The open-position SELECT, taking `rows[0]`. -/
def findOpenPosition (st : Ledger) (a m : Nat) : Option Position :=
  st.positions.find? (posKeyOpen a m)

/-- orders.ts lines 109-111:
`UPDATE accounts SET current_balance = current_balance + δ WHERE id = a`
(a no-op on every row whose id differs, and when the account is absent). -/
def updateBalance (st : Ledger) (a : Nat) (d : ℚ) : Ledger :=
  { st with balances := st.balances.map (fun e => if e.1 = a then (e.1, e.2 + d) else e) }

/-- The request body of `POST /api/v1/orders` (orders.ts lines 5-13). -/
structure CreateOrderBody where
  accountId : Nat
  marketId : Nat
  side : Side
  type : OrderType
  quantity : ℚ
  price : Option ℚ
  strategyId : Option Nat
deriving DecidableEq, Repr

/-- orders.ts lines 131-134: the freshly inserted LONG position row. -/
def newOpenPosition (newId a m : Nat) (strategyId : Option Nat)
    (quantity fillPrice : ℚ) : Position :=
  { id := newId, accountId := a, marketId := m, strategyId := strategyId,
    side := .LONG, quantity := quantity, avg_entry_price := fillPrice,
    realized_pnl := 0, is_open := true, closedAt := none }

/-- orders.ts lines 114-135, BUY branch: update the existing open
position (size-weighted average entry, line 125) or insert a fresh
LONG position. -/
def applyBuy (st : Ledger) (a m : Nat) (strategyId : Option Nat)
    (quantity fillPrice : ℚ) : Ledger :=
  match findOpenPosition st a m with
  | some existing =>
    let newQty := existing.quantity + quantity
    let newAvg := (existing.avg_entry_price * existing.quantity + fillPrice * quantity) / newQty
    { st with positions := st.positions.map (fun p =>
        if p.id == existing.id then
          { p with quantity := newQty, avg_entry_price := newAvg }
        else p) }
  | none =>
    { st with
      positions := st.positions ++ [newOpenPosition st.nextId a m strategyId quantity fillPrice],
      nextId := st.nextId + 1 }

/-- orders.ts lines 136-168, SELL branch: close the position when the
requested quantity reaches the open quantity (`realized_pnl` is SET to
the pnl of this sale, line 154), otherwise reduce it (`realized_pnl`
accumulates, line 159); either way append the trade-log row. -/
def applySell (st : Ledger) (a m orderId : Nat) (quantity fillPrice : ℚ)
    (now : Nat) : Except OrderError Ledger :=
  match findOpenPosition st a m with
  | none => .error .noOpenPositionToSell
  | some existing =>
    let existingQty := existing.quantity
    let pnl := (fillPrice - existing.avg_entry_price) * quantity
    let st1 : Ledger :=
      if existingQty ≤ quantity then
        { st with positions := st.positions.map (fun p : Position =>
            if p.id == existing.id then
              { p with is_open := false, closedAt := some now, realized_pnl := pnl }
            else p) }
      else
        { st with positions := st.positions.map (fun p : Position =>
            if p.id == existing.id then
              { p with quantity := p.quantity - quantity, realized_pnl := p.realized_pnl + pnl }
            else p) }
    .ok { st1 with tradeLog := st1.tradeLog ++
      [{ accountId := a, orderId := orderId, positionId := existing.id,
         action := .POSITION_CLOSE, pnl := pnl, quantity := quantity, price := fillPrice }] }

/-- orders.ts lines 77-92: the BUY-only pre-transaction balance check
(404 when the account row is missing, 400 when `quantity * fillPrice`
exceeds the current balance).  SELL orders skip it. -/
def checkBuyBalance (st : Ledger) (req : CreateOrderBody) (fillPrice : ℚ) :
    Except OrderError Unit :=
  match req.side with
  | .SELL => .ok ()
  | .BUY =>
    match st.balances.lookup req.accountId with
    | none => .error .accountNotFound
    | some balance =>
      if req.quantity * fillPrice > balance then .error .insufficientBalance
      else .ok ()

/-- orders.ts lines 94-171, the body of the transaction: insert the
FILLED order row, apply the balance change (line 108), then the BUY or
SELL position handling. -/
def fillTransaction (now : Nat) (req : CreateOrderBody) (fillPrice : ℚ)
    (st : Ledger) : Except OrderError (Order × Ledger) :=
  let order : Order :=
    { id := st.nextId, accountId := req.accountId, marketId := req.marketId,
      strategyId := req.strategyId, side := req.side, type := req.type,
      quantity := req.quantity, price := req.price,
      filled_quantity := req.quantity, avg_fill_price := fillPrice,
      status := .FILLED, filledAt := some now }
  let st1 : Ledger := { st with orders := st.orders ++ [order], nextId := st.nextId + 1 }
  let balanceChange : ℚ :=
    match req.side with
    | .BUY => -(req.quantity * fillPrice)
    | .SELL => req.quantity * fillPrice
  let st2 := updateBalance st1 req.accountId balanceChange
  match req.side with
  | .BUY => .ok (order, applyBuy st2 req.accountId req.marketId req.strategyId req.quantity fillPrice)
  | .SELL =>
    match applySell st2 req.accountId req.marketId order.id req.quantity fillPrice now with
    | .error e => .error e
    | .ok st3 => .ok (order, st3)

/-- `POST /api/v1/orders` (orders.ts lines 60-178): look up the latest
close for the market, derive the fill price, run the BUY balance
check, then the fill transaction. -/
def createOrder (latestClose : Nat → Option ℚ) (now : Nat)
    (req : CreateOrderBody) (st : Ledger) : Except OrderError (Order × Ledger) :=
  match latestClose req.marketId with
  | none => .error .noPriceData
  | some currentPrice =>
    let fillPrice := fillPriceOf req.type req.price currentPrice
    match checkBuyBalance st req fillPrice with
    | .error e => .error e
    | .ok _ => fillTransaction now req fillPrice st

/-- The route's transaction semantics: COMMIT keeps the new ledger,
any error ROLLBACKs to the previous one (orders.ts lines 170-174). -/
def createOrderState (latestClose : Nat → Option ℚ) (now : Nat)
    (req : CreateOrderBody) (st : Ledger) : Ledger :=
  match createOrder latestClose now req st with
  | .ok r => r.2
  | .error _ => st

/-- One order submission: the market data visible to it, the wall
clock, and the request body. -/
structure OrderEvent where
  latestClose : Nat → Option ℚ
  now : Nat
  req : CreateOrderBody

/-- A sequence of order submissions applied through the route. -/
def applyOrders (evs : List OrderEvent) (st : Ledger) : Ledger :=
  evs.foldl (fun s e => createOrderState e.latestClose e.now e.req s) st

/-- Number of open positions of one (account, market) pair. -/
def openCount (st : Ledger) (a m : Nat) : Nat :=
  st.positions.countP (posKeyOpen a m)

/-- The §3 invariant: at most one open position per (account, market). -/
def atMostOneOpen (st : Ledger) : Prop :=
  ∀ a m, openCount st a m ≤ 1

/-! ## PnL reporting (accounts.ts, positions.ts, dashboard.ts) -/

/-- §4.3 of the spec, `unrealizedPnl(position, currentPrice)`:
LONG/YES → (currentPrice − avg_entry_price)×quantity;
SHORT/NO → (avg_entry_price − currentPrice)×quantity.
Stated from the spec's words, to be compared with the route code. -/
def unrealizedPnlSpec (p : Position) (currentPrice : ℚ) : ℚ :=
  match p.side with
  | .LONG | .YES => (currentPrice - p.avg_entry_price) * p.quantity
  | .SHORT | .NO => (p.avg_entry_price - currentPrice) * p.quantity

/-- JavaScript `priceRow?.price || fallback`: a missing row or a zero
price falls back. -/
def jsOrPrice (o : Option ℚ) (fallback : ℚ) : ℚ :=
  match o with
  | some c => if c = 0 then fallback else c
  | none => fallback

/-- positions.ts lines 100-122 (`GET /api/v1/positions`): per open
position, `currentPrice = latest close || avg_entry_price`, then the
side-dependent pnl formula (lines 110-112). -/
def positionsRouteUnrealizedPnl (latestClose : Nat → Option ℚ) (p : Position) : ℚ :=
  let currentPrice := jsOrPrice (latestClose p.marketId) p.avg_entry_price
  match p.side with
  | .LONG | .YES => (currentPrice - p.avg_entry_price) * p.quantity
  | .SHORT | .NO => (p.avg_entry_price - currentPrice) * p.quantity

/-- dashboard.ts lines 37-52: the dashboard's per-position pnl,
`(currentPrice − avg_entry_price) × quantity`, with NO case on the
position side (line 44). -/
def dashboardUnrealizedPnl (latestClose : Nat → Option ℚ) (p : Position) : ℚ :=
  let currentPrice := jsOrPrice (latestClose p.marketId) p.avg_entry_price
  (currentPrice - p.avg_entry_price) * p.quantity

/-- accounts.ts lines 28-38, the equity subquery: over the account's
open positions, CASE side IN (LONG, YES) THEN quantity×close −
avg_entry_price×quantity ELSE avg_entry_price×quantity −
quantity×close, where `close` is the market's latest close; a position
whose market has no candle contributes nothing (SQL SUM skips NULL). -/
def accountUnrealizedPnlSql (latestClose : Nat → Option ℚ) (st : Ledger) (a : Nat) : ℚ :=
  ((st.positions.filter (fun p => p.accountId == a && p.is_open)).map (fun p =>
    match latestClose p.marketId with
    | some c =>
      match p.side with
      | .LONG | .YES => p.quantity * c - p.avg_entry_price * p.quantity
      | .SHORT | .NO => p.avg_entry_price * p.quantity - p.quantity * c
    | none => 0)).sum

/-- accounts.ts lines 16-48 (`GET /api/v1/accounts/:id`): 404 when the
account is missing, otherwise
`equity = current_balance + unrealizedPnl`. -/
def accountEquity (latestClose : Nat → Option ℚ) (st : Ledger) (a : Nat) : Option ℚ :=
  (st.balances.lookup a).map (fun b => b + accountUnrealizedPnlSql latestClose st a)

/-! ## Indicator sanity (indicators.ts) -/

/-- The latest `market_indicators` row fields read by the sanity check. -/
structure IndicatorRow where
  adx : Option ℚ
  rsi : Option ℚ
  timestamp : Nat
deriving DecidableEq, Repr

/-- One entry of the `alerts` array built by `checkIndicatorSanity`
(the message template with its interpolated value). -/
inductive SanityAlert
  | adxOutOfRange (v : ℚ)
  | rsiOutOfRange (v : ℚ)
deriving DecidableEq, Repr

/-- Result shape of `checkIndicatorSanity`. -/
structure SanityResult where
  valid : Bool
  alerts : List SanityAlert
deriving DecidableEq, Repr

/-- indicators.ts lines 4-23, `checkIndicatorSanity`: a null row is
valid; otherwise `adx = parseFloat(row.adx) || 0` (likewise rsi), an
alert per value outside [0, 100], `valid` iff no alerts. -/
def checkIndicatorSanity (indicators : Option IndicatorRow) : SanityResult :=
  match indicators with
  | none => { valid := true, alerts := [] }
  | some row =>
    let adx := row.adx.getD 0
    let rsi := row.rsi.getD 0
    let alerts :=
      (if adx < 0 ∨ adx > 100 then [SanityAlert.adxOutOfRange adx] else []) ++
      (if rsi < 0 ∨ rsi > 100 then [SanityAlert.rsiOutOfRange rsi] else [])
    { valid := alerts.length == 0, alerts := alerts }

/-- The `sanity` field of the response: 'ok' or 'warning'. -/
inductive SanityTag
  | ok
  | warning
deriving DecidableEq, Repr

/-- The success response of `GET /api/v1/indicators` once a row was
found (indicators.ts lines 74-83): the row itself, the sanity tag, and
the alerts (undefined when empty). -/
structure IndicatorsResponse where
  indicators : IndicatorRow
  sanity : SanityTag
  alerts : Option (List SanityAlert)
deriving DecidableEq, Repr

/-- indicators.ts lines 74-83: build the response for the latest row. -/
def indicatorsQueryResult (row : IndicatorRow) : IndicatorsResponse :=
  let sanity := checkIndicatorSanity (some row)
  { indicators := row,
    sanity := if sanity.valid then .ok else .warning,
    alerts := if sanity.alerts.length > 0 then some sanity.alerts else none }

/-! ## Concrete inputs used by witnesses and counterexamples -/

/-- An open LONG position: qty 2 at avg entry 10 with 5 of realized
pnl accumulated from an earlier partial sell. -/
def posC1 : Position :=
  { id := 0, accountId := 1, marketId := 2, strategyId := none, side := .LONG,
    quantity := 2, avg_entry_price := 10, realized_pnl := 5, is_open := true,
    closedAt := none }

/-- Ledger for the C1 scenario. -/
def stC1 : Ledger :=
  { balances := [(1, 10000)], positions := [posC1], orders := [], tradeLog := [],
    nextId := 7 }

/-- Latest close 12 on market 2. -/
def lcC1 : Nat → Option ℚ := fun m => if m = 2 then some 12 else none

/-- MARKET SELL of the full open quantity. -/
def sellReqC1 : CreateOrderBody :=
  { accountId := 1, marketId := 2, side := .SELL, type := .MARKET,
    quantity := 2, price := none, strategyId := none }

/-- Ledger with balance 10000 and no positions (C2 spec scenario). -/
def stC2 : Ledger :=
  { balances := [(1, 10000)], positions := [], orders := [], tradeLog := [],
    nextId := 0 }

/-- Latest close 95000 on market 2. -/
def lcC2 : Nat → Option ℚ := fun m => if m = 2 then some 95000 else none

/-- MARKET BUY of 0.1 at reference 95000. -/
def buyReqC2 : CreateOrderBody :=
  { accountId := 1, marketId := 2, side := .BUY, type := .MARKET,
    quantity := 1/10, price := none, strategyId := none }

/-- The empty ledger. -/
def emptyLedger : Ledger :=
  { balances := [(1, 10000)], positions := [], orders := [], tradeLog := [],
    nextId := 0 }

/-- A single BUY submission used to exercise the uniqueness invariant. -/
def evC3 : OrderEvent :=
  { latestClose := fun _ => some 10, now := 0,
    req := { accountId := 1, marketId := 2, side := .BUY, type := .MARKET,
             quantity := 1, price := none, strategyId := none } }

/-- An open LONG position: qty 2 at avg entry 10 (C4 scenario). -/
def posC4 : Position :=
  { id := 3, accountId := 1, marketId := 2, strategyId := none, side := .LONG,
    quantity := 2, avg_entry_price := 10, realized_pnl := 0, is_open := true,
    closedAt := none }

/-- Ledger for the C4 scenario. -/
def stC4 : Ledger :=
  { balances := [(1, 1000000)], positions := [posC4], orders := [], tradeLog := [],
    nextId := 9 }

/-- Latest close 20 on market 2. -/
def lcC4 : Nat → Option ℚ := fun m => if m = 2 then some 20 else none

/-- MARKET BUY of 2 at reference 20 on the C4 position. -/
def buyReqC4 : CreateOrderBody :=
  { accountId := 1, marketId := 2, side := .BUY, type := .MARKET,
    quantity := 2, price := none, strategyId := none }

/-- An open LONG position: qty 2 at avg entry 10 (C5 scenario). -/
def posC5 : Position :=
  { id := 0, accountId := 1, marketId := 2, strategyId := none, side := .LONG,
    quantity := 2, avg_entry_price := 10, realized_pnl := 0, is_open := true,
    closedAt := none }

/-- Ledger for the C5 scenario: balance 100, one open position. -/
def stC5 : Ledger :=
  { balances := [(1, 100)], positions := [posC5], orders := [], tradeLog := [],
    nextId := 1 }

/-- Latest close 12 on market 2. -/
def lcC5 : Nat → Option ℚ := fun m => if m = 2 then some 12 else none

/-- An open SHORT position: qty 1 at avg entry 10 (C6 scenario). -/
def posC6 : Position :=
  { id := 0, accountId := 1, marketId := 2, strategyId := none, side := .SHORT,
    quantity := 1, avg_entry_price := 10, realized_pnl := 0, is_open := true,
    closedAt := none }

/-- Latest close 12 on every market. -/
def lcC6 : Nat → Option ℚ := fun _ => some 12

/-- Ledger for the C7 scenario: balance 10000, no positions. -/
def stC7 : Ledger :=
  { balances := [(1, 10000)], positions := [], orders := [], tradeLog := [],
    nextId := 0 }

/-- Latest close 95000 on market 2. -/
def lcC7 : Nat → Option ℚ := fun m => if m = 2 then some 95000 else none

/-- LIMIT BUY of 0.1 with limit price 90000 while the reference is
95000 — dearer than the limit, so not immediately fillable per the
spec. -/
def limitReqC7 : CreateOrderBody :=
  { accountId := 1, marketId := 2, side := .BUY, type := .LIMIT,
    quantity := 1/10, price := some 90000, strategyId := none }

/-- Ledger for the C8 scenario: an account but no position at all. -/
def stC8 : Ledger :=
  { balances := [(1, 50)], positions := [], orders := [], tradeLog := [],
    nextId := 0 }

/-- Latest close 7 on market 2. -/
def lcC8 : Nat → Option ℚ := fun m => if m = 2 then some 7 else none

/-- MARKET SELL with no open position behind it. -/
def sellReqC8 : CreateOrderBody :=
  { accountId := 1, marketId := 2, side := .SELL, type := .MARKET,
    quantity := 1, price := none, strategyId := none }

/-- An indicator row whose adx is out of range. -/
def rowC9 : IndicatorRow :=
  { adx := some 150, rsi := some 50, timestamp := 11 }

/-- An open LONG position: qty 1 at avg entry 10 (C10 scenario). -/
def posC10 : Position :=
  { id := 4, accountId := 1, marketId := 2, strategyId := none, side := .LONG,
    quantity := 1, avg_entry_price := 10, realized_pnl := 0, is_open := true,
    closedAt := none }

/-- Ledger for the C10 scenario. -/
def stC10 : Ledger :=
  { balances := [(1, 1000)], positions := [posC10], orders := [], tradeLog := [],
    nextId := 5 }

/-- Latest close 12 on market 2. -/
def lcC10 : Nat → Option ℚ := fun m => if m = 2 then some 12 else none

/-- MARKET SELL of 3 against an open quantity of only 1. -/
def sellReqC10 : CreateOrderBody :=
  { accountId := 1, marketId := 2, side := .SELL, type := .MARKET,
    quantity := 3, price := none, strategyId := none }

/-! ## Helper lemmas -/

theorem lookup_map_balanceAdd (l : List (Nat × ℚ)) (a : Nat) (d : ℚ) :
    (l.map (fun e => if e.1 = a then (e.1, e.2 + d) else e)).lookup a
      = (l.lookup a).map (· + d) := by
  induction l with
  | nil => rfl
  | cons e t ih =>
    obtain ⟨k, v⟩ := e
    by_cases h : a = k
    · subst h
      simp only [List.map_cons, if_true]
      simp [List.lookup]
    · have h2 : (a == k) = false := by simpa using h
      simp only [List.map_cons]
      rw [if_neg (Ne.symm h)]
      simp only [List.lookup, h2]
      exact ih

theorem lookup_updateBalance (st : Ledger) (a : Nat) (d : ℚ) :
    (updateBalance st a d).balances.lookup a = (st.balances.lookup a).map (· + d) := by
  unfold updateBalance
  exact lookup_map_balanceAdd st.balances a d

theorem applyBuy_balances (st : Ledger) (a m : Nat) (sid : Option Nat) (q fp : ℚ) :
    (applyBuy st a m sid q fp).balances = st.balances := by
  unfold applyBuy
  cases findOpenPosition st a m <;> rfl

theorem countP_posKeyOpen_map_le (l : List Position) (f : Position → Position)
    (hacct : ∀ p, (f p).accountId = p.accountId)
    (hmkt : ∀ p, (f p).marketId = p.marketId)
    (hopen : ∀ p, (f p).is_open = true → p.is_open = true)
    (a m : Nat) :
    (l.map f).countP (posKeyOpen a m) ≤ l.countP (posKeyOpen a m) := by
  rw [List.countP_map]
  apply List.countP_mono_left
  intro p _ hp
  simp only [Function.comp, posKeyOpen, Bool.and_eq_true, beq_iff_eq] at hp ⊢
  obtain ⟨⟨h1, h2⟩, h3⟩ := hp
  exact ⟨⟨(hacct p) ▸ h1, (hmkt p) ▸ h2⟩, hopen p h3⟩

theorem atMostOneOpen_applyBuy (st : Ledger) (a m : Nat) (sid : Option Nat) (q fp : ℚ)
    (h : atMostOneOpen st) : atMostOneOpen (applyBuy st a m sid q fp) := by
  intro a' m'
  unfold openCount applyBuy
  cases hf : findOpenPosition st a m with
  | some ex =>
    simp only
    calc (st.positions.map _).countP (posKeyOpen a' m')
        ≤ st.positions.countP (posKeyOpen a' m') := by
          apply countP_posKeyOpen_map_le
          · intro p
            by_cases hid : p.id == ex.id <;> simp [hid]
          · intro p
            by_cases hid : p.id == ex.id <;> simp [hid]
          · intro p
            by_cases hid : p.id == ex.id <;> simp [hid]
      _ ≤ 1 := h a' m'
  | none =>
    simp only [List.countP_append]
    by_cases hk : a' = a ∧ m' = m
    · obtain ⟨ha, hm⟩ := hk
      subst ha; subst hm
      have h0 : st.positions.countP (posKeyOpen a' m') = 0 := by
        rw [List.countP_eq_zero]
        intro p hp
        have := List.find?_eq_none.mp hf p hp
        simpa [findOpenPosition] using this
      simp only [h0, List.countP_cons, List.countP_nil, Nat.zero_add]
      split <;> simp
    · have hnew : posKeyOpen a' m' (newOpenPosition st.nextId a m sid q fp) = false := by
        simp only [posKeyOpen, newOpenPosition, Bool.and_eq_false_iff]
        rcases Decidable.not_and_iff_or_not.mp hk with hna | hnm
        · left; left; simpa using fun hh => hna hh.symm
        · left; right; simpa using fun hh => hnm hh.symm
      simp only [List.countP_cons, List.countP_nil, hnew]
      simpa using h a' m'

theorem atMostOneOpen_applySell (st st' : Ledger) (a m oid : Nat) (q fp : ℚ) (now : Nat)
    (h : atMostOneOpen st) (hok : applySell st a m oid q fp now = .ok st') :
    atMostOneOpen st' := by
  unfold applySell at hok
  cases hf : findOpenPosition st a m with
  | none => rw [hf] at hok; exact absurd hok (by simp)
  | some ex =>
    rw [hf] at hok
    simp only [Except.ok.injEq] at hok
    subst hok
    intro a' m'
    unfold openCount
    by_cases hle : ex.quantity ≤ q
    · simp only [if_pos hle]
      calc (st.positions.map _).countP (posKeyOpen a' m')
          ≤ st.positions.countP (posKeyOpen a' m') := by
            apply countP_posKeyOpen_map_le
            · intro p
              by_cases hid : p.id == ex.id <;> simp [hid]
            · intro p
              by_cases hid : p.id == ex.id <;> simp [hid]
            · intro p
              by_cases hid : p.id == ex.id <;> simp [hid]
        _ ≤ 1 := h a' m'
    · simp only [if_neg hle]
      calc (st.positions.map _).countP (posKeyOpen a' m')
          ≤ st.positions.countP (posKeyOpen a' m') := by
            apply countP_posKeyOpen_map_le
            · intro p
              by_cases hid : p.id == ex.id <;> simp [hid]
            · intro p
              by_cases hid : p.id == ex.id <;> simp [hid]
            · intro p
              by_cases hid : p.id == ex.id <;> simp [hid]
        _ ≤ 1 := h a' m'

theorem atMostOneOpen_createOrderState (lc : Nat → Option ℚ) (now : Nat)
    (req : CreateOrderBody) (st : Ledger) (h : atMostOneOpen st) :
    atMostOneOpen (createOrderState lc now req st) := by
  unfold createOrderState
  split
  · next r heq =>
    simp only [createOrder] at heq
    split at heq
    · exact absurd heq (by simp)
    · split at heq
      · exact absurd heq (by simp)
      · simp only [fillTransaction] at heq
        split at heq
        · simp only [Except.ok.injEq] at heq
          subst heq
          exact atMostOneOpen_applyBuy _ _ _ _ _ _ h
        · split at heq
          · exact absurd heq (by simp)
          · next st3 hsell =>
            simp only [Except.ok.injEq] at heq
            subst heq
            refine atMostOneOpen_applySell _ st3 _ _ _ _ _ _ ?_ hsell
            exact h
  · exact h

/-! ## Claim theorems -/

/-- C3: across every sequence of BUY and SELL fills applied through
the order-creation operation, at most one open position exists per
(account_id, market_id) at any time — a BUY onto an existing open
position updates it in place, and a fresh open position is only
inserted when none is open for the pair. -/
theorem open_position_uniqueness (evs : List OrderEvent) (st : Ledger)
    (h : atMostOneOpen st) : atMostOneOpen (applyOrders evs st) := by
  induction evs generalizing st with
  | nil => exact h
  | cons e t ih => exact ih _ (atMostOneOpen_createOrderState _ _ _ _ h)

/-- Witness for C3: the invariant holds on the empty ledger and is
kept by a concrete BUY submission. -/
theorem open_position_uniqueness_witness :
    atMostOneOpen emptyLedger ∧ atMostOneOpen (applyOrders [evC3] emptyLedger) := by
  have h0 : atMostOneOpen emptyLedger := by
    intro a m
    simp [openCount, emptyLedger]
  exact ⟨h0, open_position_uniqueness [evC3] emptyLedger h0⟩

/-- C8: a SELL order on an (account, market) with no open position
fails with the `No open position to sell` error, and the rolled-back
transaction leaves the ledger exactly as it was: no order row, balance
change, position mutation or trade-log entry survives. -/
theorem sell_without_position_rejected (lc : Nat → Option ℚ) (now : Nat)
    (req : CreateOrderBody) (st : Ledger)
    (hside : req.side = .SELL)
    (hp : (lc req.marketId).isSome)
    (hnone : findOpenPosition st req.accountId req.marketId = none) :
    createOrder lc now req st = .error .noOpenPositionToSell ∧
    createOrderState lc now req st = st := by
  obtain ⟨cp, hcp⟩ := Option.isSome_iff_exists.mp hp
  have hnone' : st.positions.find? (posKeyOpen req.accountId req.marketId) = none := hnone
  have hmain : createOrder lc now req st = .error .noOpenPositionToSell := by
    simp only [createOrder, hcp, checkBuyBalance, hside, fillTransaction, applySell,
      updateBalance, findOpenPosition, hnone']
  refine ⟨hmain, ?_⟩
  unfold createOrderState
  rw [hmain]

/-- Witness for C8: concrete SELL with no open position is rejected
and the ledger is untouched. -/
theorem sell_without_position_rejected_witness :
    createOrder lcC8 0 sellReqC8 stC8 = .error .noOpenPositionToSell ∧
    createOrderState lcC8 0 sellReqC8 stC8 = stC8 :=
  sell_without_position_rejected lcC8 0 sellReqC8 stC8 rfl
    (by simp [lcC8, sellReqC8])
    (by simp [findOpenPosition, stC8])

/-- C1 (amended): a SELL on an open position with requested quantity ≥
the open quantity closes the position (is_open := false, closed_at :=
now) and SETS realized_pnl to (fillPrice − avg_entry_price) × the full
requested quantity, discarding realized PnL accumulated earlier; a
SELL with requested quantity < the open quantity keeps the position
open, reduces quantity by exactly the sold amount, keeps
avg_entry_price, and increases realized_pnl by
(fillPrice − avg_entry_price) × sold quantity. -/
theorem sell_close_or_reduce (lc : Nat → Option ℚ) (now : Nat) (req : CreateOrderBody)
    (st : Ledger) (cp : ℚ) (ex : Position)
    (hside : req.side = .SELL)
    (hp : lc req.marketId = some cp)
    (hfind : findOpenPosition st req.accountId req.marketId = some ex) :
    ∃ o st', createOrder lc now req st = .ok (o, st') ∧
      (ex.quantity ≤ req.quantity →
        ∃ p' ∈ st'.positions, p'.id = ex.id ∧ p'.is_open = false ∧
          p'.closedAt = some now ∧
          p'.realized_pnl = (fillPriceOf req.type req.price cp - ex.avg_entry_price) * req.quantity) ∧
      (req.quantity < ex.quantity →
        ∃ p' ∈ st'.positions, p'.id = ex.id ∧ p'.is_open = true ∧
          p'.quantity = ex.quantity - req.quantity ∧
          p'.avg_entry_price = ex.avg_entry_price ∧
          p'.realized_pnl = ex.realized_pnl +
            (fillPriceOf req.type req.price cp - ex.avg_entry_price) * req.quantity) := by
  have hfind' : st.positions.find? (posKeyOpen req.accountId req.marketId) = some ex := hfind
  have hexmem : ex ∈ st.positions := List.mem_of_find?_eq_some hfind
  have hexopen : ex.is_open = true := by
    have hexkey := List.find?_some hfind'
    simp only [posKeyOpen, Bool.and_eq_true] at hexkey
    exact hexkey.2
  by_cases hle : ex.quantity ≤ req.quantity
  · simp only [createOrder, hp, checkBuyBalance, hside, fillTransaction, applySell,
      updateBalance, findOpenPosition, hfind']
    rw [if_pos hle]
    refine ⟨_, _, rfl, fun _ => ?_, fun hlt => absurd hle (not_le.mpr hlt)⟩
    refine ⟨_, List.mem_map_of_mem _ hexmem, ?_⟩
    simp
  · simp only [createOrder, hp, checkBuyBalance, hside, fillTransaction, applySell,
      updateBalance, findOpenPosition, hfind']
    rw [if_neg hle]
    refine ⟨_, _, rfl, fun hge => absurd hge hle, fun _ => ?_⟩
    refine ⟨_, List.mem_map_of_mem _ hexmem, ?_⟩
    simp [hexopen]

/-- Witness for C1 (amended): the concrete full-close SELL of C1's
scenario, with every hypothesis discharged. -/
theorem sell_close_or_reduce_witness :
    ∃ o st', createOrder lcC1 3 sellReqC1 stC1 = .ok (o, st') ∧
      (posC1.quantity ≤ sellReqC1.quantity →
        ∃ p' ∈ st'.positions, p'.id = posC1.id ∧ p'.is_open = false ∧
          p'.closedAt = some 3 ∧
          p'.realized_pnl = (fillPriceOf sellReqC1.type sellReqC1.price 12 -
            posC1.avg_entry_price) * sellReqC1.quantity) ∧
      (sellReqC1.quantity < posC1.quantity →
        ∃ p' ∈ st'.positions, p'.id = posC1.id ∧ p'.is_open = true ∧
          p'.quantity = posC1.quantity - sellReqC1.quantity ∧
          p'.avg_entry_price = posC1.avg_entry_price ∧
          p'.realized_pnl = posC1.realized_pnl +
            (fillPriceOf sellReqC1.type sellReqC1.price 12 -
              posC1.avg_entry_price) * sellReqC1.quantity) :=
  sell_close_or_reduce lcC1 3 sellReqC1 stC1 12 posC1 rfl rfl rfl

/-- Counterexample to C1 as stated: on a position with quantity 2,
avg entry 10 and 5 of previously realized PnL, a full-close SELL of 2
at fill price 12 leaves realized_pnl = 4 — not the claimed
5 + (12 − 10) × min(2, 2) = 9: the accumulated PnL is overwritten. -/
theorem sell_full_close_discards_prior_realized_pnl :
    ((createOrderState lcC1 3 sellReqC1 stC1).positions.map Position.realized_pnl) = [4] ∧
    posC1.realized_pnl +
      (12 - posC1.avg_entry_price) * min sellReqC1.quantity posC1.quantity = 9 ∧
    (4 : ℚ) ≠ 9 := by
  refine ⟨?_, ?_, by norm_num⟩
  · simp [createOrderState, createOrder, fillTransaction, applySell, applyBuy,
      findOpenPosition, posKeyOpen, checkBuyBalance, updateBalance, fillPriceOf,
      stC1, posC1, sellReqC1, lcC1]
    norm_num
  · simp only [posC1, sellReqC1]
    norm_num

/-- C10: a SELL whose requested quantity strictly exceeds the open
quantity is accepted rather than rejected or capped: the order is
FILLED at the full requested quantity, the position closes with
realized_pnl computed over the full requested quantity, and the
account is credited the full requested quantity × fill price —
including proceeds for units the position never held. -/
theorem oversell_accepted_with_full_credit (lc : Nat → Option ℚ) (now : Nat)
    (req : CreateOrderBody) (st : Ledger) (cp b : ℚ) (ex : Position)
    (hside : req.side = .SELL)
    (hp : lc req.marketId = some cp)
    (hfind : findOpenPosition st req.accountId req.marketId = some ex)
    (hover : ex.quantity < req.quantity)
    (hb : st.balances.lookup req.accountId = some b) :
    ∃ o st', createOrder lc now req st = .ok (o, st') ∧
      o.status = .FILLED ∧ o.filled_quantity = req.quantity ∧
      st'.balances.lookup req.accountId =
        some (b + req.quantity * fillPriceOf req.type req.price cp) ∧
      ∃ p' ∈ st'.positions, p'.id = ex.id ∧ p'.is_open = false ∧
        p'.realized_pnl = (fillPriceOf req.type req.price cp - ex.avg_entry_price) *
          req.quantity := by
  have hfind' : st.positions.find? (posKeyOpen req.accountId req.marketId) = some ex := hfind
  have hexmem : ex ∈ st.positions := List.mem_of_find?_eq_some hfind
  have hle : ex.quantity ≤ req.quantity := le_of_lt hover
  simp only [createOrder, hp, checkBuyBalance, hside, fillTransaction, applySell,
    updateBalance, findOpenPosition, hfind']
  rw [if_pos hle]
  refine ⟨_, _, rfl, rfl, rfl, ?_, ?_⟩
  · rw [lookup_map_balanceAdd, hb]
    rfl
  · refine ⟨_, List.mem_map_of_mem _ hexmem, ?_⟩
    simp

/-- Witness for C10: the concrete oversell (open quantity 1, SELL 3 at
fill price 12) with every hypothesis discharged. -/
theorem oversell_accepted_with_full_credit_witness :
    ∃ o st', createOrder lcC10 0 sellReqC10 stC10 = .ok (o, st') ∧
      o.status = .FILLED ∧ o.filled_quantity = sellReqC10.quantity ∧
      st'.balances.lookup sellReqC10.accountId =
        some (1000 + sellReqC10.quantity * fillPriceOf sellReqC10.type sellReqC10.price 12) ∧
      ∃ p' ∈ st'.positions, p'.id = posC10.id ∧ p'.is_open = false ∧
        p'.realized_pnl = (fillPriceOf sellReqC10.type sellReqC10.price 12 -
          posC10.avg_entry_price) * sellReqC10.quantity :=
  oversell_accepted_with_full_credit lcC10 0 sellReqC10 stC10 12 1000 posC10 rfl rfl rfl
    (by norm_num [posC10, sellReqC10]) rfl

/-- C2 (amended): every accepted MARKET order fills at exactly the
latest close (reference) price, with no slippage adjustment and no
fee: a BUY of quantity q at reference p changes the account balance by
exactly −(q × p) and a SELL by exactly +(q × p) — proved for both
sides under the route's own acceptance conditions (BUY: the balance
check passes; SELL: an open position exists). -/
theorem market_order_fills_at_reference (lc : Nat → Option ℚ) (now : Nat)
    (req : CreateOrderBody) (st : Ledger) (cp b : ℚ)
    (htype : req.type = .MARKET)
    (hp : lc req.marketId = some cp)
    (hb : st.balances.lookup req.accountId = some b)
    (hbuy : req.side = .BUY → ¬ req.quantity * cp > b)
    (hsell : req.side = .SELL → (findOpenPosition st req.accountId req.marketId).isSome) :
    ∃ o st', createOrder lc now req st = .ok (o, st') ∧
      o.avg_fill_price = cp ∧
      st'.balances.lookup req.accountId =
        some (if req.side = .BUY then b - req.quantity * cp
              else b + req.quantity * cp) := by
  have hfp : fillPriceOf req.type req.price cp = cp := by
    simp [fillPriceOf, htype]
  cases hside : req.side with
  | BUY =>
    simp only [createOrder, hp, checkBuyBalance, hside, hfp, hb]
    rw [if_neg (hbuy hside)]
    simp only [fillTransaction, hside, hfp]
    refine ⟨_, _, rfl, rfl, ?_⟩
    rw [applyBuy_balances]
    simp only [updateBalance]
    rw [lookup_map_balanceAdd, hb]
    simp [sub_eq_add_neg]
  | SELL =>
    obtain ⟨ex, hfind⟩ := Option.isSome_iff_exists.mp (hsell hside)
    have hfind' : st.positions.find? (posKeyOpen req.accountId req.marketId) = some ex := hfind
    simp only [createOrder, hp, checkBuyBalance, hside, hfp, fillTransaction, applySell,
      updateBalance, findOpenPosition, hfind']
    by_cases hle : ex.quantity ≤ req.quantity
    · rw [if_pos hle]
      refine ⟨_, _, rfl, rfl, ?_⟩
      rw [lookup_map_balanceAdd, hb]
      simp
    · rw [if_neg hle]
      refine ⟨_, _, rfl, rfl, ?_⟩
      rw [lookup_map_balanceAdd, hb]
      simp

/-- Counterexample to C2 as stated: on the spec's own scenario
(balance 10000, MARKET BUY of 0.1 at reference 95000) the order fills
at exactly 95000 and the balance becomes exactly 10000 − 0.1 × 95000 =
500; with the repository's documented defaults slippage_bps = 5 and
fee_bps = 2 the claimed fill price 95000 × (1 + 0.0005) and the
claimed balance 10000 − 9500 × (1 + 0.0005) − 9500 × 0.0002 both
differ from what the code produces. -/
theorem market_buy_no_slippage_no_fee :
    ((createOrder lcC2 0 buyReqC2 stC2).map (fun r => r.1.avg_fill_price)) = .ok 95000 ∧
    ((createOrderState lcC2 0 buyReqC2 stC2).balances.lookup 1) = some 500 ∧
    (95000 : ℚ) ≠ 95000 * (1 + 5/10000) ∧
    (500 : ℚ) ≠ 10000 - 9500 * (1 + 5/10000) - 9500 * (2/10000) := by
  refine ⟨?_, ?_, by norm_num, by norm_num⟩
  · simp [createOrder, fillTransaction, applyBuy, findOpenPosition, posKeyOpen,
      checkBuyBalance, updateBalance, fillPriceOf, stC2, buyReqC2, lcC2]
    norm_num [Except.map]
  · simp [createOrderState, createOrder, fillTransaction, applyBuy, findOpenPosition,
      posKeyOpen, checkBuyBalance, updateBalance, fillPriceOf, stC2, buyReqC2, lcC2]
    norm_num [List.lookup]

/-- Witness for C2 (amended): the concrete MARKET BUY of 0.1 at
reference 95000 against balance 10000, with every hypothesis
discharged. -/
theorem market_order_fills_at_reference_witness :
    ∃ o st', createOrder lcC2 0 buyReqC2 stC2 = .ok (o, st') ∧
      o.avg_fill_price = 95000 ∧
      st'.balances.lookup buyReqC2.accountId =
        some (if buyReqC2.side = .BUY then 10000 - buyReqC2.quantity * 95000
              else 10000 + buyReqC2.quantity * 95000) :=
  market_order_fills_at_reference lcC2 0 buyReqC2 stC2 95000 10000 rfl rfl rfl
    (fun _ => by norm_num [buyReqC2]) (fun h => by simp [buyReqC2] at h)

/-- C7 (amended): a LIMIT order is never rejected on price grounds: it
fills immediately — at its limit price when a nonzero limit price is
supplied, otherwise at the reference price (the JavaScript
`price || currentPrice` fallback, `jsOrPrice`) — regardless of how the
reference compares to the limit, proved for both sides under the
route's own acceptance conditions (BUY: the balance check passes;
SELL: an open position exists); no UnfillableAtCurrentPrice rejection
exists. -/
theorem limit_order_fills_at_limit_or_reference (lc : Nat → Option ℚ) (now : Nat)
    (req : CreateOrderBody) (st : Ledger) (cp b : ℚ)
    (htype : req.type = .LIMIT)
    (hp : lc req.marketId = some cp)
    (hb : st.balances.lookup req.accountId = some b)
    (hbuy : req.side = .BUY → ¬ req.quantity * jsOrPrice req.price cp > b)
    (hsell : req.side = .SELL → (findOpenPosition st req.accountId req.marketId).isSome) :
    ∃ o st', createOrder lc now req st = .ok (o, st') ∧
      o.status = .FILLED ∧
      o.avg_fill_price = jsOrPrice req.price cp := by
  have hfp : fillPriceOf req.type req.price cp = jsOrPrice req.price cp := by
    cases hpr : req.price <;> simp [fillPriceOf, jsOrPrice, htype, hpr]
  cases hside : req.side with
  | BUY =>
    simp only [createOrder, hp, checkBuyBalance, hside, hfp, hb]
    rw [if_neg (hbuy hside)]
    simp only [fillTransaction, hside, hfp]
    exact ⟨_, _, rfl, rfl, rfl⟩
  | SELL =>
    obtain ⟨ex, hfind⟩ := Option.isSome_iff_exists.mp (hsell hside)
    have hfind' : st.positions.find? (posKeyOpen req.accountId req.marketId) = some ex := hfind
    simp only [createOrder, hp, checkBuyBalance, hside, hfp, fillTransaction, applySell,
      updateBalance, findOpenPosition, hfind']
    by_cases hle : ex.quantity ≤ req.quantity
    · rw [if_pos hle]
      exact ⟨_, _, rfl, rfl, rfl⟩
    · rw [if_neg hle]
      exact ⟨_, _, rfl, rfl, rfl⟩

/-- Counterexample to C7 as stated: a BUY LIMIT at limit 90000 while
the reference is 95000 (reference NOT ≤ limit, so per the claim it
must be rejected with UnfillableAtCurrentPrice and leave state
unchanged) is in fact accepted, filled at 90000, and creates a
position. -/
theorem limit_buy_unfavorable_still_fills :
    ((createOrder lcC7 0 limitReqC7 stC7).map (fun r => (r.1.avg_fill_price, r.1.status))) =
      .ok (90000, .FILLED) ∧
    ¬ ((95000 : ℚ) ≤ 90000) ∧
    (createOrderState lcC7 0 limitReqC7 stC7).positions ≠ stC7.positions := by
  refine ⟨?_, by norm_num, ?_⟩
  · simp [createOrder, fillTransaction, applyBuy, findOpenPosition, posKeyOpen,
      checkBuyBalance, updateBalance, fillPriceOf, stC7, limitReqC7, lcC7]
    norm_num [Except.map]
  · simp [createOrderState, createOrder, fillTransaction, applyBuy, findOpenPosition,
      posKeyOpen, checkBuyBalance, updateBalance, fillPriceOf, stC7, limitReqC7, lcC7]
    norm_num

/-- Witness for C7 (amended): the concrete unfavorable BUY LIMIT of
the counterexample scenario, accepted at its limit price, with every
hypothesis discharged. -/
theorem limit_order_fills_at_limit_or_reference_witness :
    ∃ o st', createOrder lcC7 0 limitReqC7 stC7 = .ok (o, st') ∧
      o.status = .FILLED ∧
      o.avg_fill_price = jsOrPrice limitReqC7.price 95000 :=
  limit_order_fills_at_limit_or_reference lcC7 0 limitReqC7 stC7 95000 10000 rfl rfl rfl
    (fun _ => by norm_num [limitReqC7, jsOrPrice]) (fun h => by simp [limitReqC7] at h)

/-- The size-weighted average of two price levels lies between them. -/
theorem weighted_avg_between (a f oq q : ℚ) (hoq : 0 < oq) (hq : 0 < q) :
    min a f ≤ (a * oq + f * q) / (oq + q) ∧ (a * oq + f * q) / (oq + q) ≤ max a f := by
  have hsum : 0 < oq + q := by linarith
  constructor
  · rw [le_div_iff₀ hsum]
    have h1 : min a f ≤ a := min_le_left a f
    have h2 : min a f ≤ f := min_le_right a f
    nlinarith
  · rw [div_le_iff₀ hsum]
    have h1 : a ≤ max a f := le_max_left a f
    have h2 : f ≤ max a f := le_max_right a f
    nlinarith

/-- C4: a BUY fill onto an existing open position with positive old
and fill quantities yields quantity oldQty + qty and avg_entry_price
(oldAvg×oldQty + fillPrice×qty)/(oldQty+qty), which always lies
between oldAvg and fillPrice inclusive. -/
theorem buy_weighted_average_entry (lc : Nat → Option ℚ) (now : Nat)
    (req : CreateOrderBody) (st : Ledger) (cp b : ℚ) (ex : Position)
    (hside : req.side = .BUY)
    (hp : lc req.marketId = some cp)
    (hb : st.balances.lookup req.accountId = some b)
    (hcost : ¬ req.quantity * fillPriceOf req.type req.price cp > b)
    (hfind : findOpenPosition st req.accountId req.marketId = some ex)
    (hq : 0 < req.quantity) (hexq : 0 < ex.quantity) :
    ∃ o st', createOrder lc now req st = .ok (o, st') ∧
      ∃ p' ∈ st'.positions, p'.id = ex.id ∧
        p'.quantity = ex.quantity + req.quantity ∧
        p'.avg_entry_price = (ex.avg_entry_price * ex.quantity +
          fillPriceOf req.type req.price cp * req.quantity) / (ex.quantity + req.quantity) ∧
        min ex.avg_entry_price (fillPriceOf req.type req.price cp) ≤ p'.avg_entry_price ∧
        p'.avg_entry_price ≤ max ex.avg_entry_price (fillPriceOf req.type req.price cp) := by
  have hfind' : st.positions.find? (posKeyOpen req.accountId req.marketId) = some ex := hfind
  have hexmem : ex ∈ st.positions := List.mem_of_find?_eq_some hfind
  have hbetween := weighted_avg_between ex.avg_entry_price
    (fillPriceOf req.type req.price cp) ex.quantity req.quantity hexq hq
  simp only [createOrder, hp, checkBuyBalance, hside, hb]
  rw [if_neg hcost]
  simp only [fillTransaction, hside, applyBuy, updateBalance, findOpenPosition, hfind']
  refine ⟨_, _, rfl, ?_⟩
  refine ⟨_, List.mem_map_of_mem _ hexmem, ?_⟩
  simp only [beq_self_eq_true, if_true]
  exact ⟨trivial, trivial, trivial, hbetween.1, hbetween.2⟩

/-- Witness for C4: a concrete BUY of 2 at fill price 20 onto an open
position of 2 at avg entry 10. -/
theorem buy_weighted_average_entry_witness :
    ∃ o st', createOrder lcC4 0 buyReqC4 stC4 = .ok (o, st') ∧
      ∃ p' ∈ st'.positions, p'.id = posC4.id ∧
        p'.quantity = posC4.quantity + buyReqC4.quantity ∧
        p'.avg_entry_price = (posC4.avg_entry_price * posC4.quantity +
          fillPriceOf buyReqC4.type buyReqC4.price 20 * buyReqC4.quantity) /
            (posC4.quantity + buyReqC4.quantity) ∧
        min posC4.avg_entry_price (fillPriceOf buyReqC4.type buyReqC4.price 20) ≤
          p'.avg_entry_price ∧
        p'.avg_entry_price ≤ max posC4.avg_entry_price (fillPriceOf buyReqC4.type buyReqC4.price 20) :=
  buy_weighted_average_entry lcC4 0 buyReqC4 stC4 20 1000000 posC4 rfl rfl rfl
    (by norm_num [fillPriceOf, buyReqC4]) rfl
    (by norm_num [buyReqC4]) (by norm_num [posC4])

/-- C5: the equity reported by the account query equals the account's
cash balance plus the sum, over its open positions, of the spec's
unrealized PnL valued at each market's latest close (assuming every
open position's market has a latest close, as the claim presupposes). -/
theorem account_equity_balance_plus_unrealized (lc : Nat → Option ℚ) (st : Ledger)
    (a : Nat) (b : ℚ)
    (hb : st.balances.lookup a = some b)
    (hall : ∀ p ∈ st.positions, (p.accountId == a && p.is_open) = true →
      (lc p.marketId).isSome) :
    accountEquity lc st a = some (b +
      ((st.positions.filter (fun p => p.accountId == a && p.is_open)).map
        (fun p => unrealizedPnlSpec p ((lc p.marketId).getD 0))).sum) := by
  have hsum : accountUnrealizedPnlSql lc st a =
      ((st.positions.filter (fun p => p.accountId == a && p.is_open)).map
        (fun p => unrealizedPnlSpec p ((lc p.marketId).getD 0))).sum := by
    unfold accountUnrealizedPnlSql
    congr 1
    apply List.map_congr_left
    intro p hp
    have hmem : p ∈ st.positions := (List.mem_filter.mp hp).1
    have hpred : (p.accountId == a && p.is_open) = true := (List.mem_filter.mp hp).2
    obtain ⟨c, hc⟩ := Option.isSome_iff_exists.mp (hall p hmem hpred)
    rw [hc]
    cases hs : p.side
    all_goals simp only [unrealizedPnlSpec, hs, Option.getD_some]
    all_goals ring
  unfold accountEquity
  rw [hb, hsum]
  rfl

/-- Witness for C5: concrete account with balance 100 and one open
LONG position of 2 at avg entry 10 with latest close 12. -/
theorem account_equity_balance_plus_unrealized_witness :
    accountEquity lcC5 stC5 1 = some (100 +
      ((stC5.positions.filter (fun p => p.accountId == 1 && p.is_open)).map
        (fun p => unrealizedPnlSpec p ((lcC5 p.marketId).getD 0))).sum) :=
  account_equity_balance_plus_unrealized lcC5 stC5 1 100 rfl (by
    intro p hp hpred
    simp only [stC5, List.mem_singleton] at hp
    subst hp
    simp [lcC5, posC5])

/-- C6 (amended): the positions listing computes unrealized PnL with
the side-dependent formula of the spec (LONG/YES: (c − avg)×qty;
SHORT/NO: (avg − c)×qty), but the dashboard computes
(c − avg)×qty for EVERY position regardless of side, which agrees
with the spec formula only for LONG and YES positions. -/
theorem unrealized_pnl_route_formulas (lc : Nat → Option ℚ) (p : Position) (c : ℚ)
    (hc : lc p.marketId = some c) (hc0 : c ≠ 0) :
    positionsRouteUnrealizedPnl lc p = unrealizedPnlSpec p c ∧
    dashboardUnrealizedPnl lc p = (c - p.avg_entry_price) * p.quantity ∧
    ((p.side = .LONG ∨ p.side = .YES) →
      dashboardUnrealizedPnl lc p = unrealizedPnlSpec p c) := by
  have hj : jsOrPrice (lc p.marketId) p.avg_entry_price = c := by
    simp [jsOrPrice, hc, hc0]
  refine ⟨?_, ?_, ?_⟩
  · simp only [positionsRouteUnrealizedPnl, unrealizedPnlSpec, hj]
  · simp only [dashboardUnrealizedPnl, hj]
  · rintro (hs | hs) <;> simp only [dashboardUnrealizedPnl, unrealizedPnlSpec, hj, hs]

/-- Counterexample to C6 as stated: for an open SHORT position of 1 at
avg entry 10 and current price 12, the claim requires a reported
unrealized PnL of (10 − 12) × 1 = −2, but the dashboard — a
position-reporting operation — reports (12 − 10) × 1 = 2. -/
theorem dashboard_short_position_pnl_wrong_sign :
    posC6.side = .SHORT ∧
    dashboardUnrealizedPnl lcC6 posC6 = 2 ∧
    (posC6.avg_entry_price - 12) * posC6.quantity = -2 ∧
    (2 : ℚ) ≠ -2 := by
  refine ⟨rfl, ?_, ?_, by norm_num⟩
  · simp [dashboardUnrealizedPnl, jsOrPrice, lcC6, posC6]
    norm_num
  · simp only [posC6]
    norm_num

/-- Witness for C6 (amended): the concrete SHORT position of the
counterexample, at current price 12. -/
theorem unrealized_pnl_route_formulas_witness :
    positionsRouteUnrealizedPnl lcC6 posC6 = unrealizedPnlSpec posC6 12 ∧
    dashboardUnrealizedPnl lcC6 posC6 = (12 - posC6.avg_entry_price) * posC6.quantity ∧
    ((posC6.side = .LONG ∨ posC6.side = .YES) →
      dashboardUnrealizedPnl lcC6 posC6 = unrealizedPnlSpec posC6 12) :=
  unrealized_pnl_route_formulas lcC6 posC6 12 rfl (by norm_num)

/-- C9: an indicator query whose latest stored adx or rsi lies outside
[0, 100] still returns the indicator row unchanged, tags the response
sanity = 'warning', and attaches a non-empty alerts array — it never
fails or withholds the values. -/
theorem indicator_sanity_warning_nonfatal (row : IndicatorRow)
    (h : (∃ v, row.adx = some v ∧ (v < 0 ∨ 100 < v)) ∨
         (∃ v, row.rsi = some v ∧ (v < 0 ∨ 100 < v))) :
    (indicatorsQueryResult row).indicators = row ∧
    (indicatorsQueryResult row).sanity = .warning ∧
    (indicatorsQueryResult row).alerts ≠ none := by
  have hlen : 0 < (checkIndicatorSanity (some row)).alerts.length := by
    simp only [checkIndicatorSanity, List.length_append]
    obtain ⟨v, hv, hrange⟩ | ⟨v, hv, hrange⟩ := h
    · rw [hv]
      simp only [Option.getD_some]
      rw [if_pos (by exact hrange)]
      simp only [List.length_singleton]
      omega
    · rw [hv]
      simp only [Option.getD_some]
      have h2 : (0:ℕ) <
          (if v < 0 ∨ v > 100 then [SanityAlert.rsiOutOfRange v] else []).length := by
        rw [if_pos (by exact hrange)]
        simp
      omega
  have hvalid : (checkIndicatorSanity (some row)).valid =
      ((checkIndicatorSanity (some row)).alerts.length == 0) := by
    simp only [checkIndicatorSanity]
  have hvfalse : (checkIndicatorSanity (some row)).valid = false := by
    rw [hvalid]
    simpa using Nat.pos_iff_ne_zero.mp hlen
  refine ⟨rfl, ?_, ?_⟩
  · simp only [indicatorsQueryResult, hvfalse]
    rfl
  · simp only [indicatorsQueryResult]
    rw [if_pos hlen]
    simp

/-- Witness for C9: a concrete row with adx = 150. -/
theorem indicator_sanity_warning_nonfatal_witness :
    (indicatorsQueryResult rowC9).indicators = rowC9 ∧
    (indicatorsQueryResult rowC9).sanity = .warning ∧
    (indicatorsQueryResult rowC9).alerts ≠ none :=
  indicator_sanity_warning_nonfatal rowC9 (Or.inl ⟨150, rfl, Or.inr (by norm_num)⟩)

end Polypaper
